import Mathlib

/-!
Verification of the `SyncthingMonitor` status/lifecycle logic of the
Obsidian-Syncthing-Launcher plugin (`src/main.ts`), as a shallow embedding.

Modelling conventions:
* JavaScript `undefined`/`null` string and number fields become `Option` values;
  the `NaN` sent in some `status-update` payloads is likewise modelled as `none`
  (the spec treats "NaN/absent" as one "unknown" value).
* Status values are the literal strings the code assigns (`"idle"`, `"stopped"`,
  `"Invalid API key"`, ...).  `this.status` is `Option String` because a
  `StateChanged` event copies `event.data.to`, which may be absent.
* The `setStatusIcon` callback only drives the UI and holds no monitor state, so
  icon calls are not modelled.  EventEmitter emissions (`status-update`,
  `disconnected`) are returned explicitly by each operation.
* The asynchronous timer / HTTP machinery is modelled by a system state `Sys`
  holding the monitor, the pending poll timer (`pollingTimeoutId`, as the
  scheduled delay in ms), counts of in-flight requests, and counters of issued
  requests; `Action`s deliver timer firings and request outcomes.
* Numeric event payloads (`completion`, `globalItems`, `needItems`) are `Int`,
  event ids are `Int` (JS numbers used only via `Math.max` and equality here).
-/

/-- Plugin settings (`interface Settings` in `src/main.ts`). -/
structure Settings where
  syncthingApiKey : String
  vaultFolderID : String
  startOnObsidianOpen : Bool
  stopOnObsidianClose : Bool
  useDocker : Bool
  remoteUrl : String
  mobileMode : Bool
deriving DecidableEq, Repr

/-- `DEFAULT_SETTINGS` from `src/main.ts`. -/
def DEFAULT_SETTINGS : Settings :=
  { syncthingApiKey := ""
    vaultFolderID := ""
    startOnObsidianOpen := false
    stopOnObsidianClose := false
    useDocker := false
    remoteUrl := "http://127.0.0.1:8384"
    mobileMode := false }

/-- Payload object of a `SyncthingEvent`'s `data` field.  In JavaScript the
fields that a given event type does not carry are simply absent (`undefined`),
hence every field is optional with default `none`. -/
structure EventData where
  completion : Option Int := none
  globalItems : Option Int := none
  needItems : Option Int := none
  «to» : Option String := none
deriving DecidableEq, Repr

/-- `interface SyncthingEvent` (`id`, `type`, `data`; the `time` string is never
read by the monitor and is omitted). -/
structure SyncthingEvent where
  id : Int
  type : String
  data : EventData
deriving DecidableEq, Repr

/-- `interface Connection` from `src/main.ts`. -/
structure Connection where
  connected : Bool
deriving DecidableEq, Repr

/-- The mutable fields of `class SyncthingMonitor`. -/
@[ext]
structure Monitor where
  token : Option String
  timeout : Nat
  lastEventId : Option Int
  /-- `pollingTimeoutId`: `some d` iff a poll is scheduled to fire after `d` ms. -/
  pollingTimeoutId : Option Nat
  isTokenSet : Bool
  baseUrl : String
  status : Option String
  connectedDevicesCount : Nat
  availableDevices : Nat
  fileCompletion : Option Int
  globalItems : Option Int
  needItems : Option Int
deriving DecidableEq, Repr

/-- Field initialisers of `class SyncthingMonitor`. -/
def initialMonitor : Monitor :=
  { token := none
    timeout := 1
    lastEventId := none
    pollingTimeoutId := none
    isTokenSet := false
    baseUrl := "http://127.0.0.1:8384"
    status := some "idle"
    connectedDevicesCount := 0
    availableDevices := 0
    fileCompletion := none
    globalItems := none
    needItems := none }

/-- Payload of a `status-update` emission.  Numeric fields are `none` when the
code sends `NaN` or an `undefined` field. -/
structure StatusUpdate where
  status : Option String
  fileCompletion : Option Int
  globalItems : Option Int
  needItems : Option Int
  connectedDevicesCount : Option Nat
  availableDevices : Option Nat
deriving DecidableEq, Repr

/-- The two EventEmitter emissions of the monitor. -/
inductive Notification where
  | statusUpdate (payload : StatusUpdate) : Notification
  | disconnected : Notification
deriving DecidableEq, Repr

/-- The all-`NaN` payload `{status, fileCompletion: NaN, ...}` used by the
API-key / auth error emissions. -/
def nanPayload (st : Option String) : StatusUpdate :=
  { status := st
    fileCompletion := none
    globalItems := none
    needItems := none
    connectedDevicesCount := none
    availableDevices := none }

/-- The normal payload carrying the monitor's current fields. -/
def currentPayload (m : Monitor) : StatusUpdate :=
  { status := m.status
    fileCompletion := m.fileCompletion
    globalItems := m.globalItems
    needItems := m.needItems
    connectedDevicesCount := some m.connectedDevicesCount
    availableDevices := some m.availableDevices }

/-- `SyncthingMonitor.processEvent`: the `switch (event.type)` over one event. -/
def processEvent (m : Monitor) (e : SyncthingEvent) : Monitor :=
  if e.type = "FolderCompletion" then
    { m with
      fileCompletion := e.data.completion
      globalItems := e.data.globalItems
      needItems := e.data.needItems }
  else if e.type = "StateChanged" then
    { m with status := e.data.«to» }
  else if e.type = "DeviceDisconnected" then
    { m with status := some "Device disconnected" }
  else if e.type = "DeviceConnected" then
    { m with status := some "Device connected" }
  else
    m

/-- One iteration of the event loop in `poll`'s response handler:
`this.lastEventId = Math.max(this.lastEventId ?? 0, event.id); this.processEvent(event)`. -/
def pollStep (m : Monitor) (e : SyncthingEvent) : Monitor :=
  processEvent { m with lastEventId := some (max (m.lastEventId.getD 0) e.id) } e

/-- The `for (const event of events)` loop over a parsed event batch. -/
def processBatch (m : Monitor) (evs : List SyncthingEvent) : Monitor :=
  evs.foldl pollStep m

/-- `SyncthingMonitor.stopMonitoring`: clear any pending timer, reset the event
cursor, set status to `"stopped"`, emit `'disconnected'`. -/
def stopMonitoring (m : Monitor) : Monitor × List Notification :=
  let m1 := if m.pollingTimeoutId.isSome then { m with pollingTimeoutId := none } else m
  ({ m1 with lastEventId := none, status := some "stopped" },
   [Notification.disconnected])

/- Projection lemmas for `processEvent` on the fields it never writes. -/

theorem processEvent_token (m : Monitor) (e : SyncthingEvent) :
    (processEvent m e).token = m.token := by
  unfold processEvent; split_ifs <;> rfl

theorem processEvent_lastEventId (m : Monitor) (e : SyncthingEvent) :
    (processEvent m e).lastEventId = m.lastEventId := by
  unfold processEvent; split_ifs <;> rfl

theorem processEvent_timeout (m : Monitor) (e : SyncthingEvent) :
    (processEvent m e).timeout = m.timeout := by
  unfold processEvent; split_ifs <;> rfl

theorem processEvent_pollingTimeoutId (m : Monitor) (e : SyncthingEvent) :
    (processEvent m e).pollingTimeoutId = m.pollingTimeoutId := by
  unfold processEvent; split_ifs <;> rfl

theorem processEvent_fileCompletion (m : Monitor) (e : SyncthingEvent) :
    (processEvent m e).fileCompletion =
      if e.type = "FolderCompletion" then e.data.completion else m.fileCompletion := by
  unfold processEvent; split_ifs <;> rfl

theorem processEvent_globalItems (m : Monitor) (e : SyncthingEvent) :
    (processEvent m e).globalItems =
      if e.type = "FolderCompletion" then e.data.globalItems else m.globalItems := by
  unfold processEvent; split_ifs <;> rfl

theorem processEvent_needItems (m : Monitor) (e : SyncthingEvent) :
    (processEvent m e).needItems =
      if e.type = "FolderCompletion" then e.data.needItems else m.needItems := by
  unfold processEvent; split_ifs <;> rfl

theorem processEvent_isTokenSet (m : Monitor) (e : SyncthingEvent) :
    (processEvent m e).isTokenSet = m.isTokenSet := by
  unfold processEvent; split_ifs <;> rfl

theorem processEvent_baseUrl (m : Monitor) (e : SyncthingEvent) :
    (processEvent m e).baseUrl = m.baseUrl := by
  unfold processEvent; split_ifs <;> rfl

theorem processEvent_connectedDevicesCount (m : Monitor) (e : SyncthingEvent) :
    (processEvent m e).connectedDevicesCount = m.connectedDevicesCount := by
  unfold processEvent; split_ifs <;> rfl

theorem processEvent_availableDevices (m : Monitor) (e : SyncthingEvent) :
    (processEvent m e).availableDevices = m.availableDevices := by
  unfold processEvent; split_ifs <;> rfl

theorem processEvent_status (m : Monitor) (e : SyncthingEvent) :
    (processEvent m e).status =
      if e.type = "FolderCompletion" then m.status
      else if e.type = "StateChanged" then e.data.«to»
      else if e.type = "DeviceDisconnected" then some "Device disconnected"
      else if e.type = "DeviceConnected" then some "Device connected"
      else m.status := by
  unfold processEvent; split_ifs <;> rfl

theorem pollStep_token (m : Monitor) (e : SyncthingEvent) :
    (pollStep m e).token = m.token := by
  unfold pollStep; rw [processEvent_token]

theorem pollStep_lastEventId (m : Monitor) (e : SyncthingEvent) :
    (pollStep m e).lastEventId = some (max (m.lastEventId.getD 0) e.id) := by
  unfold pollStep; rw [processEvent_lastEventId]

theorem pollStep_timeout (m : Monitor) (e : SyncthingEvent) :
    (pollStep m e).timeout = m.timeout := by
  unfold pollStep; rw [processEvent_timeout]

theorem pollStep_pollingTimeoutId (m : Monitor) (e : SyncthingEvent) :
    (pollStep m e).pollingTimeoutId = m.pollingTimeoutId := by
  unfold pollStep; rw [processEvent_pollingTimeoutId]

theorem pollStep_isTokenSet (m : Monitor) (e : SyncthingEvent) :
    (pollStep m e).isTokenSet = m.isTokenSet := by
  unfold pollStep; rw [processEvent_isTokenSet]

theorem pollStep_baseUrl (m : Monitor) (e : SyncthingEvent) :
    (pollStep m e).baseUrl = m.baseUrl := by
  unfold pollStep; rw [processEvent_baseUrl]

theorem pollStep_connectedDevicesCount (m : Monitor) (e : SyncthingEvent) :
    (pollStep m e).connectedDevicesCount = m.connectedDevicesCount := by
  unfold pollStep; rw [processEvent_connectedDevicesCount]

theorem pollStep_availableDevices (m : Monitor) (e : SyncthingEvent) :
    (pollStep m e).availableDevices = m.availableDevices := by
  unfold pollStep; rw [processEvent_availableDevices]

theorem pollStep_status (m : Monitor) (e : SyncthingEvent) :
    (pollStep m e).status =
      if e.type = "FolderCompletion" then m.status
      else if e.type = "StateChanged" then e.data.«to»
      else if e.type = "DeviceDisconnected" then some "Device disconnected"
      else if e.type = "DeviceConnected" then some "Device connected"
      else m.status := by
  unfold pollStep; rw [processEvent_status]

theorem pollStep_fileCompletion (m : Monitor) (e : SyncthingEvent) :
    (pollStep m e).fileCompletion =
      if e.type = "FolderCompletion" then e.data.completion else m.fileCompletion := by
  unfold pollStep; rw [processEvent_fileCompletion]

theorem pollStep_globalItems (m : Monitor) (e : SyncthingEvent) :
    (pollStep m e).globalItems =
      if e.type = "FolderCompletion" then e.data.globalItems else m.globalItems := by
  unfold pollStep; rw [processEvent_globalItems]

theorem pollStep_needItems (m : Monitor) (e : SyncthingEvent) :
    (pollStep m e).needItems =
      if e.type = "FolderCompletion" then e.data.needItems else m.needItems := by
  unfold pollStep; rw [processEvent_needItems]

/-- Re-delivering the same event twice in a row leaves the monitor unchanged:
every branch of `processEvent` assigns values that depend only on the event,
and `Math.max(x, e.id)` absorbs a repeated `e.id`. -/
theorem pollStep_idem (m : Monitor) (e : SyncthingEvent) :
    pollStep (pollStep m e) e = pollStep m e := by
  ext1
  · rw [pollStep_token, pollStep_token]
  · rw [pollStep_timeout, pollStep_timeout]
  · simp only [pollStep_lastEventId, Option.getD_some]
    rw [max_assoc, max_self]
  · rw [pollStep_pollingTimeoutId, pollStep_pollingTimeoutId]
  · rw [pollStep_isTokenSet, pollStep_isTokenSet]
  · rw [pollStep_baseUrl, pollStep_baseUrl]
  · simp only [pollStep_status]
    split_ifs <;> rfl
  · rw [pollStep_connectedDevicesCount, pollStep_connectedDevicesCount]
  · rw [pollStep_availableDevices, pollStep_availableDevices]
  · simp only [pollStep_fileCompletion]
    split_ifs <;> rfl
  · simp only [pollStep_globalItems]
    split_ifs <;> rfl
  · simp only [pollStep_needItems]
    split_ifs <;> rfl

theorem processBatch_token (m : Monitor) (evs : List SyncthingEvent) :
    (processBatch m evs).token = m.token := by
  induction evs generalizing m with
  | nil => rfl
  | cons e t ih => simpa [processBatch, pollStep_token] using ih (pollStep m e)

/-- Claim C10: `stopMonitoring` modifies only the pending-timer handle, the
event cursor and the status: the progress fields (`fileCompletion`,
`globalItems`, `needItems`) and the device counts (`connectedDevicesCount`,
`availableDevices`) — as well as `token`, `timeout`, `isTokenSet` and
`baseUrl` — are unchanged by `stop()`, so stale readings survive into the
stopped state. -/
theorem stopMonitoring_frame (m : Monitor) :
    (stopMonitoring m).1.fileCompletion = m.fileCompletion
    ∧ (stopMonitoring m).1.globalItems = m.globalItems
    ∧ (stopMonitoring m).1.needItems = m.needItems
    ∧ (stopMonitoring m).1.connectedDevicesCount = m.connectedDevicesCount
    ∧ (stopMonitoring m).1.availableDevices = m.availableDevices
    ∧ (stopMonitoring m).1.token = m.token
    ∧ (stopMonitoring m).1.timeout = m.timeout
    ∧ (stopMonitoring m).1.isTokenSet = m.isTokenSet
    ∧ (stopMonitoring m).1.baseUrl = m.baseUrl := by
  unfold stopMonitoring
  split_ifs <;> exact ⟨rfl, rfl, rfl, rfl, rfl, rfl, rfl, rfl, rfl⟩

/-- The two events of the concrete batch of claim C9. -/
def stateChangedEvent5 : SyncthingEvent :=
  { id := 5, type := "StateChanged", data := { «to» := some "scanning" } }

/-- The `FolderCompletion` event of the concrete batch of claim C9. -/
def folderCompletionEvent7 : SyncthingEvent :=
  { id := 7, type := "FolderCompletion",
    data := { completion := some 42, globalItems := some 10, needItems := some 4 } }

/-- Claim C9: processing the batch
`[{id:5, StateChanged, to:"scanning"}, {id:7, FolderCompletion, completion:42, ...}]`
from the initial monitor state yields status `"scanning"`, `fileCompletion = 42`
and `lastEventId = 7`: the `FolderCompletion` event updates the numeric fields
without overriding the status set by the earlier `StateChanged` event. -/
theorem batch_scanning_42_7 :
    (processBatch initialMonitor [stateChangedEvent5, folderCompletionEvent7]).status
        = some "scanning"
    ∧ (processBatch initialMonitor [stateChangedEvent5, folderCompletionEvent7]).fileCompletion
        = some 42
    ∧ (processBatch initialMonitor [stateChangedEvent5, folderCompletionEvent7]).lastEventId
        = some 7 := by
  decide

/-- One step of the spec-side "last `FolderCompletion` payload" accumulator. -/
def fcAcc (acc : Option EventData) (e : SyncthingEvent) : Option EventData :=
  if e.type = "FolderCompletion" then some e.data else acc

/-- The payload of the last `FolderCompletion` event of a batch, in arrival
order (`none` when the batch has no such event). -/
def lastFolderCompletion (evs : List SyncthingEvent) : Option EventData :=
  evs.foldl fcAcc none

theorem foldl_fcAcc (t : List SyncthingEvent) (a : Option EventData) :
    t.foldl fcAcc a =
      match t.foldl fcAcc none with
      | some d => some d
      | none => a := by
  induction t generalizing a with
  | nil => rfl
  | cons e t ih =>
    simp only [List.foldl_cons]
    rw [ih (fcAcc a e), ih (fcAcc none e)]
    cases h : t.foldl fcAcc none with
    | some d => rfl
    | none => unfold fcAcc; split_ifs <;> rfl

theorem processBatch_lastFC (evs : List SyncthingEvent) (m : Monitor) :
    ((processBatch m evs).fileCompletion =
      match lastFolderCompletion evs with
      | some d => d.completion
      | none => m.fileCompletion)
    ∧ ((processBatch m evs).globalItems =
      match lastFolderCompletion evs with
      | some d => d.globalItems
      | none => m.globalItems)
    ∧ ((processBatch m evs).needItems =
      match lastFolderCompletion evs with
      | some d => d.needItems
      | none => m.needItems) := by
  induction evs generalizing m with
  | nil => exact ⟨rfl, rfl, rfl⟩
  | cons e t ih =>
    have hb : processBatch m (e :: t) = processBatch (pollStep m e) t := rfl
    have hl : lastFolderCompletion (e :: t) =
        match lastFolderCompletion t with
        | some d => some d
        | none => fcAcc none e := by
      show (e :: t).foldl fcAcc none = _
      rw [List.foldl_cons]
      exact foldl_fcAcc t (fcAcc none e)
    obtain ⟨ih1, ih2, ih3⟩ := ih (pollStep m e)
    rw [hb, hl]
    cases h : lastFolderCompletion t with
    | some d =>
      rw [h] at ih1 ih2 ih3
      exact ⟨ih1, ih2, ih3⟩
    | none =>
      rw [h] at ih1 ih2 ih3
      rw [ih1, ih2, ih3,
        pollStep_fileCompletion, pollStep_globalItems, pollStep_needItems]
      unfold fcAcc
      split_ifs <;> exact ⟨rfl, rfl, rfl⟩

/-- Claim C8: within one batch, the final `fileCompletion` (likewise
`globalItems` and `needItems`) equals the payload of the last
`FolderCompletion` event in arrival order — later events override earlier
ones — and replaying the final event once more leaves the whole monitor state
unchanged (idempotence). -/
theorem folderCompletion_last_writer (m : Monitor) (evs : List SyncthingEvent)
    (e : SyncthingEvent) :
    ((processBatch m evs).fileCompletion =
      match lastFolderCompletion evs with
      | some d => d.completion
      | none => m.fileCompletion)
    ∧ ((processBatch m evs).globalItems =
      match lastFolderCompletion evs with
      | some d => d.globalItems
      | none => m.globalItems)
    ∧ ((processBatch m evs).needItems =
      match lastFolderCompletion evs with
      | some d => d.needItems
      | none => m.needItems)
    ∧ processBatch m (evs ++ [e, e]) = processBatch m (evs ++ [e]) := by
  obtain ⟨h1, h2, h3⟩ := processBatch_lastFC evs m
  refine ⟨h1, h2, h3, ?_⟩
  show (evs ++ [e, e]).foldl pollStep m = (evs ++ [e]).foldl pollStep m
  rw [List.foldl_append, List.foldl_append]
  simp only [List.foldl_cons, List.foldl_nil]
  exact pollStep_idem (evs.foldl pollStep m) e

/-- Counterexample to claim C1's idempotence clause: calling `stopMonitoring`
on a monitor that was never started is not a no-op — it changes `status` from
the initial `"idle"` to `"stopped"` and emits a `'disconnected'` notification. -/
theorem stop_never_started_not_noop :
    (stopMonitoring initialMonitor).1 ≠ initialMonitor
    ∧ (stopMonitoring initialMonitor).1.status ≠ initialMonitor.status
    ∧ (stopMonitoring initialMonitor).2 ≠ ([] : List Notification) := by
  decide

/-- Claim C1 (amended): in every monitor state, `stopMonitoring` cancels any
pending scheduled poll timer, resets the event cursor to its absent value,
sets status to `"stopped"` and emits a `'disconnected'` notification; it is
idempotent on the monitor state (a second call leaves the state unchanged),
but each call — including one on a never-started or already-stopped monitor —
re-emits the notification, and on a never-started monitor it still overwrites
the initial status, so a strict no-op it is not. -/
theorem stopMonitoring_spec (m : Monitor) :
    (stopMonitoring m).1.pollingTimeoutId = none
    ∧ (stopMonitoring m).1.lastEventId = none
    ∧ (stopMonitoring m).1.status = some "stopped"
    ∧ (stopMonitoring m).2 = [Notification.disconnected]
    ∧ (stopMonitoring (stopMonitoring m).1).1 = (stopMonitoring m).1 := by
  unfold stopMonitoring
  cases h : m.pollingTimeoutId with
  | none => simp [h]
  | some d => simp [h]

/-! ## HTTP responses, the scheduler and the polling loops -/

/-- `a.isPrefixOf`-style check written out: does the second list start with the
first? (Backs the JavaScript `String.prototype.includes` model.) -/
def listStartsWith : List Char → List Char → Bool
  | [], _ => true
  | _ :: _, [] => false
  | a :: as, b :: bs => a == b && listStartsWith as bs

/-- Does the list contain the first list as a contiguous subsequence? -/
def listContainsSeq (needle : List Char) : List Char → Bool
  | [] => needle.isEmpty
  | c :: t => listStartsWith needle (c :: t) || listContainsSeq needle t

/-- JavaScript `s.includes(pat)` (case-sensitive substring test). -/
def jsIncludes (s pat : String) : Bool := listContainsSeq pat.data s.data

/-- The test `/CSRF Error/i.test(body)`: a case-insensitive regex on a literal
pattern, i.e. the lowercased body contains `"csrf error"`. -/
def csrfErrorTest (body : String) : Bool :=
  listContainsSeq "csrf error".data (body.data.map Char.toLower)

/-- The shared auth-failure check
`res.statusCode === 401 || csrfErrorRegex.test(body)`. -/
def authFailure (statusCode : Nat) (body : String) : Bool :=
  (statusCode == 401) || csrfErrorTest body

/-- Outcome of `JSON.parse(body)` in the event-poll handler: a JavaScript
array (`Array.isArray` true), some other JSON value, or a parse exception. -/
inductive ParseResult where
  | array (evs : List SyncthingEvent)
  | notArray
  | parseFail
deriving DecidableEq, Repr

/-- A completed event-poll HTTP response: status code, raw body (fed to the
CSRF regex) and the outcome of parsing the body. -/
structure PollResponse where
  statusCode : Nat
  body : String
  parsed : ParseResult
deriving DecidableEq, Repr

/-- Outcome of `Object.values(JSON.parse(body).connections)`: the list of
connection records, or an exception (malformed JSON or missing field). -/
inductive ConnParse where
  | ok (connections : List Connection)
  | parseFail
deriving DecidableEq, Repr

/-- A completed `/rest/system/connections` HTTP response. -/
structure ConnResponse where
  statusCode : Nat
  body : String
  parsed : ConnParse
deriving DecidableEq, Repr

/-- JavaScript truthiness of `this.token` (`null` and `""` are falsy). -/
def tokenTruthy : Option String → Bool
  | none => false
  | some t => t != ""

/-- The monitor plus its asynchronous environment: the number of event-poll
and connections-check requests currently in flight, and counters of all
requests issued so far (the pending poll timer lives in
`Monitor.pollingTimeoutId`). -/
structure Sys where
  m : Monitor
  pollInFlight : Nat
  connInFlight : Nat
  pollRequests : Nat
  connRequests : Nat
deriving DecidableEq, Repr

/-- A freshly constructed monitor with no pending work. -/
def initialSys : Sys :=
  { m := initialMonitor
    pollInFlight := 0
    connInFlight := 0
    pollRequests := 0
    connRequests := 0 }

/-- The synchronous part of `SyncthingMonitor.poll`: if the token is falsy,
set status and emit the all-NaN update without issuing a request or
rescheduling; otherwise issue the `/rest/events` request (its completion
arrives later as a `SysAction`). -/
def pollCall (s : Sys) : Sys × List Notification :=
  if tokenTruthy s.m.token then
    ({ s with pollInFlight := s.pollInFlight + 1, pollRequests := s.pollRequests + 1 }, [])
  else
    let m1 := { s.m with status := some "API key not set" }
    ({ s with m := m1 }, [Notification.statusUpdate (nanPayload m1.status)])

/-- The synchronous part of `SyncthingMonitor.checkConnections` (same token
guard, then issues the `/rest/system/connections` request). -/
def connCall (s : Sys) : Sys × List Notification :=
  if tokenTruthy s.m.token then
    ({ s with connInFlight := s.connInFlight + 1, connRequests := s.connRequests + 1 }, [])
  else
    let m1 := { s.m with status := some "API key not set" }
    ({ s with m := m1 }, [Notification.statusUpdate (nanPayload m1.status)])

/-- The field assignments at the top of `startMonitoring`:
`this.token = settings.syncthingApiKey; this.timeout = 1;
this.isTokenSet = !!settings.syncthingApiKey; this.baseUrl = baseUrl`. -/
def startAssign (settings : Settings) (baseUrl : String) (m : Monitor) : Monitor :=
  { m with
    token := some settings.syncthingApiKey
    timeout := 1
    isTokenSet := settings.syncthingApiKey != ""
    baseUrl := baseUrl }

/-- `SyncthingMonitor.startMonitoring(settings, setStatusIcon, baseUrl)`. -/
def startMonitoring (settings : Settings) (baseUrl : String) (s : Sys) :
    Sys × List Notification :=
  if (startAssign settings baseUrl s.m).isTokenSet then
    let p := pollCall { s with m := startAssign settings baseUrl s.m }
    let c := connCall p.1
    (c.1, p.2 ++ c.2)
  else
    ({ s with m := { startAssign settings baseUrl s.m with status := some "API key not set" } },
     [Notification.statusUpdate (nanPayload (some "API key not set"))])

/-- The `try { const events = JSON.parse(body); if (Array.isArray(events))
{...} } catch {...}` block: only a successfully parsed array is processed;
any other outcome leaves the monitor untouched. -/
def parsedBatch (m : Monitor) (p : ParseResult) : Monitor :=
  match p with
  | ParseResult.array evs => processBatch m evs
  | ParseResult.notArray => m
  | ParseResult.parseFail => m

/-- The `res.on('end')` handler of the event poll.  On 401/CSRF: set status,
emit the NaN update, reschedule in 5000 ms and return (the early `return`
skips the `try`/`finally`).  Otherwise process the parsed batch if it is an
array, then — in the `finally` block — call `checkConnections()` inline, emit
the current state and reschedule after `timeout * 1000` ms. -/
def pollResponseEnd (s : Sys) (r : PollResponse) : Sys × List Notification :=
  if authFailure r.statusCode r.body then
    let m1 := { s.m with status := some "Invalid API key", pollingTimeoutId := some 5000 }
    ({ s with m := m1 }, [Notification.statusUpdate (nanPayload m1.status)])
  else
    let m1 := parsedBatch s.m r.parsed
    let c := connCall { s with m := m1 }
    let m3 := { c.1.m with pollingTimeoutId := some (c.1.m.timeout * 1000) }
    ({ c.1 with m := m3 },
     c.2 ++ [Notification.statusUpdate (currentPayload c.1.m)])

/-- The `req.on('error')` handler of the event poll: set status
`"Connection error"` and reschedule in 5000 ms (no emission). -/
def pollErrorEnd (s : Sys) : Sys × List Notification :=
  ({ s with m := { s.m with status := some "Connection error", pollingTimeoutId := some 5000 } },
   [])

/-- The `res.on('end')` handler of the connections check.  On 401/CSRF the
early `return` skips the `try`/`finally`, so nothing is emitted.  On success,
set the device counts and force `"No devices connected"` when no device is
connected (the `else if (this.status === "idle")` arm only updates the status
icon, not the state); the `finally` block emits the current state, also after
a parse failure. -/
def handleConnectionsEnd (m : Monitor) (r : ConnResponse) : Monitor × List Notification :=
  if authFailure r.statusCode r.body then
    ({ m with status := some "Invalid API key" }, [])
  else
    match r.parsed with
    | ConnParse.ok conns =>
        let m1 := { m with
          availableDevices := conns.length
          connectedDevicesCount := (conns.filter (fun c => c.connected)).length }
        let m2 := if m1.connectedDevicesCount == 0
          then { m1 with status := some "No devices connected" }
          else m1
        (m2, [Notification.statusUpdate (currentPayload m2)])
    | ConnParse.parseFail => (m, [Notification.statusUpdate (currentPayload m)])

/-- Asynchronous events delivered to the monitor: the pending poll timer
fires; the plugin calls `stopMonitoring`; an in-flight event-poll request
completes (or errors); an in-flight connections request completes.  An action
whose precondition does not hold (no timer pending, nothing in flight) is a
no-op. -/
inductive SysAction where
  | timerFires
  | stopCall
  | pollRes (r : PollResponse)
  | pollErr
  | connRes (r : ConnResponse)
deriving DecidableEq, Repr

/-- One scheduler step: deliver an action to the system. -/
def stepAction (s : Sys) (a : SysAction) : Sys × List Notification :=
  match a with
  | SysAction.timerFires =>
      match s.m.pollingTimeoutId with
      | some _ => pollCall { s with m := { s.m with pollingTimeoutId := none } }
      | none => (s, [])
  | SysAction.stopCall =>
      let p := stopMonitoring s.m
      ({ s with m := p.1 }, p.2)
  | SysAction.pollRes r =>
      if s.pollInFlight ≠ 0 then
        pollResponseEnd { s with pollInFlight := s.pollInFlight - 1 } r
      else (s, [])
  | SysAction.pollErr =>
      if s.pollInFlight ≠ 0 then
        pollErrorEnd { s with pollInFlight := s.pollInFlight - 1 }
      else (s, [])
  | SysAction.connRes r =>
      if s.connInFlight ≠ 0 then
        let p := handleConnectionsEnd s.m r
        ({ s with connInFlight := s.connInFlight - 1, m := p.1 }, p.2)
      else (s, [])

/-- `stepAction`, keeping only the state. -/
def stepS (s : Sys) (a : SysAction) : Sys := (stepAction s a).1

/-- Deliver a sequence of actions. -/
def runActions (s : Sys) (acts : List SysAction) : Sys := acts.foldl stepS s

/-- Outcome of the `isSyncthingRunning` probe request (`GET /` with a 2000 ms
timeout): any HTTP response, a request error with its message, or the
timeout event (which destroys the request). -/
inductive ProbeOutcome where
  | response (statusCode : Nat)
  | error (message : String)
  | timeout
deriving DecidableEq, Repr

/-- The value `SyncthingMonitor.isSyncthingRunning` resolves to for each probe
outcome.  The promise only ever resolves (never rejects), so this is a total
function into `Bool`: errors never propagate to the caller. -/
def isSyncthingRunning : ProbeOutcome → Bool
  | ProbeOutcome.response _ => true
  | ProbeOutcome.error msg => if jsIncludes msg "ECONNREFUSED" then false else false
  | ProbeOutcome.timeout => false

/-! ## Preservation lemmas for the handlers -/

theorem stopMonitoring_token (m : Monitor) : (stopMonitoring m).1.token = m.token := by
  unfold stopMonitoring; split_ifs <;> rfl

theorem stopMonitoring_pollingTimeoutId (m : Monitor) :
    (stopMonitoring m).1.pollingTimeoutId = none := by
  unfold stopMonitoring
  cases h : m.pollingTimeoutId with
  | none => simp [h]
  | some d => simp [h]

theorem stopMonitoring_lastEventId (m : Monitor) :
    (stopMonitoring m).1.lastEventId = none := by
  unfold stopMonitoring; split_ifs <;> rfl

theorem processBatch_timeout (m : Monitor) (evs : List SyncthingEvent) :
    (processBatch m evs).timeout = m.timeout := by
  induction evs generalizing m with
  | nil => rfl
  | cons e t ih => simpa [processBatch, pollStep_timeout] using ih (pollStep m e)

theorem parsedBatch_timeout (m : Monitor) (p : ParseResult) :
    (parsedBatch m p).timeout = m.timeout := by
  cases p with
  | array evs => exact processBatch_timeout m evs
  | notArray => rfl
  | parseFail => rfl

theorem parsedBatch_token (m : Monitor) (p : ParseResult) :
    (parsedBatch m p).token = m.token := by
  cases p with
  | array evs => exact processBatch_token m evs
  | notArray => rfl
  | parseFail => rfl

theorem connCall_m_token (s : Sys) : (connCall s).1.m.token = s.m.token := by
  unfold connCall; split_ifs <;> rfl

theorem connCall_m_timeout (s : Sys) : (connCall s).1.m.timeout = s.m.timeout := by
  unfold connCall; split_ifs <;> rfl

theorem connCall_m_lastEventId (s : Sys) :
    (connCall s).1.m.lastEventId = s.m.lastEventId := by
  unfold connCall; split_ifs <;> rfl

theorem connCall_m_pollingTimeoutId (s : Sys) :
    (connCall s).1.m.pollingTimeoutId = s.m.pollingTimeoutId := by
  unfold connCall; split_ifs <;> rfl

theorem connCall_pollRequests (s : Sys) : (connCall s).1.pollRequests = s.pollRequests := by
  unfold connCall; split_ifs <;> rfl

theorem connCall_pollInFlight (s : Sys) : (connCall s).1.pollInFlight = s.pollInFlight := by
  unfold connCall; split_ifs <;> rfl

theorem handleConnectionsEnd_token (m : Monitor) (r : ConnResponse) :
    (handleConnectionsEnd m r).1.token = m.token := by
  cases hp : r.parsed with
  | ok conns =>
      simp only [handleConnectionsEnd, hp]
      split_ifs <;> rfl
  | parseFail =>
      simp only [handleConnectionsEnd, hp]
      split_ifs <;> rfl

theorem handleConnectionsEnd_lastEventId (m : Monitor) (r : ConnResponse) :
    (handleConnectionsEnd m r).1.lastEventId = m.lastEventId := by
  cases hp : r.parsed with
  | ok conns =>
      simp only [handleConnectionsEnd, hp]
      split_ifs <;> rfl
  | parseFail =>
      simp only [handleConnectionsEnd, hp]
      split_ifs <;> rfl

theorem handleConnectionsEnd_pollingTimeoutId (m : Monitor) (r : ConnResponse) :
    (handleConnectionsEnd m r).1.pollingTimeoutId = m.pollingTimeoutId := by
  cases hp : r.parsed with
  | ok conns =>
      simp only [handleConnectionsEnd, hp]
      split_ifs <;> rfl
  | parseFail =>
      simp only [handleConnectionsEnd, hp]
      split_ifs <;> rfl

/-! ## Claims C5, C6, C7 -/

/-- Claim C7: the liveness probe resolves `true` for every HTTP response
received, whatever its status code (200, 404, 401, ...), and `false` for
every request error (connection refused included) and for the 2000 ms
timeout; being a total function into `Bool`, it never propagates an error to
its caller. -/
theorem isSyncthingRunning_spec (statusCode : Nat) (message : String) :
    isSyncthingRunning (ProbeOutcome.response statusCode) = true
    ∧ isSyncthingRunning (ProbeOutcome.error message) = false
    ∧ isSyncthingRunning ProbeOutcome.timeout = false := by
  refine ⟨rfl, ?_, rfl⟩
  show (if jsIncludes message "ECONNREFUSED" then false else false) = false
  exact ite_self false

/-- Claim C6: on a successful connections-check response the monitor sets
`availableDevices` to the number of entries and `connectedDevicesCount` to
the number of connected entries; a zero count forces status
`"No devices connected"` whatever the prior status was, while with at least
one connected device a prior `"idle"` status is left unchanged. -/
theorem connectionsCheck_counts (m : Monitor) (r : ConnResponse)
    (conns : List Connection)
    (hauth : authFailure r.statusCode r.body = false)
    (hparse : r.parsed = ConnParse.ok conns) :
    (handleConnectionsEnd m r).1.availableDevices = conns.length
    ∧ (handleConnectionsEnd m r).1.connectedDevicesCount
        = (conns.filter (fun c => c.connected)).length
    ∧ ((handleConnectionsEnd m r).1.connectedDevicesCount = 0 →
        (handleConnectionsEnd m r).1.status = some "No devices connected")
    ∧ ((handleConnectionsEnd m r).1.connectedDevicesCount ≠ 0 →
        m.status = some "idle" →
        (handleConnectionsEnd m r).1.status = some "idle") := by
  have hc : ¬ (authFailure r.statusCode r.body = true) := by
    rw [hauth]; exact Bool.false_ne_true
  simp only [handleConnectionsEnd, hparse, if_neg hc]
  split_ifs with h0
  · have h0' : (conns.filter (fun c => c.connected)).length = 0 := by simpa using h0
    exact ⟨rfl, rfl, fun _ => rfl, fun hne _ => absurd h0' hne⟩
  · refine ⟨rfl, rfl, fun h => ?_, fun _ hidle => hidle⟩
    have h' : (conns.filter (fun c => c.connected)).length = 0 := h
    exact absurd (by simp [h']) h0

/-- Concrete successful connections response used as a witness input. -/
def demoConnResponse : ConnResponse :=
  { statusCode := 200, body := "",
    parsed := ConnParse.ok [{ connected := false }, { connected := true }] }

theorem connectionsCheck_counts_witness :
    authFailure demoConnResponse.statusCode demoConnResponse.body = false
    ∧ demoConnResponse.parsed
        = ConnParse.ok [{ connected := false }, { connected := true }]
    ∧ (handleConnectionsEnd initialMonitor demoConnResponse).1.availableDevices = 2
    ∧ (handleConnectionsEnd initialMonitor demoConnResponse).1.connectedDevicesCount = 1
    ∧ (handleConnectionsEnd initialMonitor demoConnResponse).1.status = some "idle" :=
  ⟨by decide, rfl,
   (connectionsCheck_counts initialMonitor demoConnResponse _ (by decide) rfl).1,
   (connectionsCheck_counts initialMonitor demoConnResponse _ (by decide) rfl).2.1,
   (connectionsCheck_counts initialMonitor demoConnResponse _ (by decide) rfl).2.2.2
     (by decide) rfl⟩

/-- Claim C5: an event-poll response with HTTP 401 or a body matching the
case-insensitive CSRF pattern sets status `"Invalid API key"`, emits exactly
one status update (with unknown numeric fields) and reschedules the next poll
after 5000 ms, whereas every non-auth-failing response (successfully
processed or parse-failed) reschedules after `timeout * 1000` = 1000 ms. -/
theorem poll_auth_backoff (s : Sys) (r : PollResponse) :
    (authFailure r.statusCode r.body = true →
        (pollResponseEnd s r).1.m.status = some "Invalid API key"
        ∧ (pollResponseEnd s r).1.m.pollingTimeoutId = some 5000
        ∧ (pollResponseEnd s r).2
            = [Notification.statusUpdate (nanPayload (some "Invalid API key"))])
    ∧ (authFailure r.statusCode r.body = false → s.m.timeout = 1 →
        (pollResponseEnd s r).1.m.pollingTimeoutId = some 1000) := by
  constructor
  · intro h
    unfold pollResponseEnd
    rw [if_pos h]
    exact ⟨rfl, rfl, rfl⟩
  · intro h ht
    have hc : ¬ (authFailure r.statusCode r.body = true) := by
      rw [h]; exact Bool.false_ne_true
    unfold pollResponseEnd
    rw [if_neg hc]
    show some ((connCall { s with m := parsedBatch s.m r.parsed }).1.m.timeout * 1000)
        = some 1000
    rw [connCall_m_timeout]
    show some ((parsedBatch s.m r.parsed).timeout * 1000) = some 1000
    rw [parsedBatch_timeout, ht]

/-- Concrete auth-failing poll response (HTTP 401). -/
def authFailResponse : PollResponse :=
  { statusCode := 401, body := "", parsed := ParseResult.parseFail }

/-- Concrete successful poll response carrying an empty event array. -/
def okEmptyPollResponse : PollResponse :=
  { statusCode := 200, body := "[]", parsed := ParseResult.array [] }

/-! ## Claim C4: monotonicity of the event cursor -/

/-- Ordering on the event cursor: an absent cursor precedes everything, a
present cursor may only grow. -/
def cursorLe : Option Int → Option Int → Prop
  | none, _ => True
  | some x, b => ∃ y, b = some y ∧ x ≤ y

theorem cursorLe_refl (c : Option Int) : cursorLe c c := by
  cases c with
  | none => trivial
  | some x => exact ⟨x, rfl, le_refl x⟩

theorem cursorLe_trans {a b c : Option Int} (h1 : cursorLe a b) (h2 : cursorLe b c) :
    cursorLe a c := by
  cases a with
  | none => trivial
  | some x =>
      obtain ⟨y, hb, hxy⟩ := h1
      subst hb
      obtain ⟨z, hc, hyz⟩ := h2
      exact ⟨z, hc, le_trans hxy hyz⟩

/-- The effect of the event loop on the cursor alone:
`c := some (max (c ?? 0) e.id)` folded over the batch. -/
def idFold (c : Option Int) (evs : List SyncthingEvent) : Option Int :=
  evs.foldl (fun acc e => some (max (acc.getD 0) e.id)) c

theorem processBatch_lastEventId (m : Monitor) (evs : List SyncthingEvent) :
    (processBatch m evs).lastEventId = idFold m.lastEventId evs := by
  induction evs generalizing m with
  | nil => rfl
  | cons e t ih =>
      have hb : processBatch m (e :: t) = processBatch (pollStep m e) t := rfl
      rw [hb, ih (pollStep m e), pollStep_lastEventId]
      rfl

theorem idFold_some (t : List SyncthingEvent) (v : Int) :
    idFold (some v) t = some ((t.map SyncthingEvent.id).foldl max v) := by
  induction t generalizing v with
  | nil => rfl
  | cons e t ih =>
      have h1 : idFold (some v) (e :: t) = idFold (some (max v e.id)) t := rfl
      rw [h1, ih (max v e.id)]
      rfl

theorem idFold_cons (c : Option Int) (e : SyncthingEvent) (t : List SyncthingEvent) :
    idFold c (e :: t) =
      some (((e :: t).map SyncthingEvent.id).foldl max (c.getD 0)) := by
  have h1 : idFold c (e :: t) = idFold (some (max (c.getD 0) e.id)) t := rfl
  rw [h1, idFold_some]
  rfl

theorem cursorLe_getD_max (c : Option Int) (i : Int) :
    cursorLe c (some (max (c.getD 0) i)) := by
  cases c with
  | none => trivial
  | some x => exact ⟨max x i, rfl, le_max_left x i⟩

theorem cursorLe_idFold (c : Option Int) (evs : List SyncthingEvent) :
    cursorLe c (idFold c evs) := by
  induction evs generalizing c with
  | nil => exact cursorLe_refl c
  | cons e t ih =>
      exact cursorLe_trans (cursorLe_getD_max c e.id) (ih (some (max (c.getD 0) e.id)))

theorem parsedBatch_lastEventId_array (m : Monitor) (evs : List SyncthingEvent) :
    (parsedBatch m (ParseResult.array evs)).lastEventId = idFold m.lastEventId evs :=
  processBatch_lastEventId m evs

theorem cursorLe_parsedBatch (m : Monitor) (p : ParseResult) :
    cursorLe m.lastEventId (parsedBatch m p).lastEventId := by
  cases p with
  | array evs =>
      rw [parsedBatch_lastEventId_array]
      exact cursorLe_idFold m.lastEventId evs
  | notArray => exact cursorLe_refl _
  | parseFail => exact cursorLe_refl _

theorem pollResponseEnd_lastEventId_auth (s : Sys) (r : PollResponse)
    (h : authFailure r.statusCode r.body = true) :
    (pollResponseEnd s r).1.m.lastEventId = s.m.lastEventId := by
  unfold pollResponseEnd
  rw [if_pos h]

theorem pollResponseEnd_lastEventId (s : Sys) (r : PollResponse)
    (h : authFailure r.statusCode r.body = false) :
    (pollResponseEnd s r).1.m.lastEventId = (parsedBatch s.m r.parsed).lastEventId := by
  have hc : ¬ (authFailure r.statusCode r.body = true) := by
    rw [h]; exact Bool.false_ne_true
  unfold pollResponseEnd
  rw [if_neg hc]
  show (connCall { s with m := parsedBatch s.m r.parsed }).1.m.lastEventId = _
  rw [connCall_m_lastEventId]

theorem stepS_cursorLe (s : Sys) (a : SysAction) (ha : a ≠ SysAction.stopCall) :
    cursorLe s.m.lastEventId (stepS s a).m.lastEventId := by
  cases a with
  | timerFires =>
      simp only [stepS, stepAction]
      cases hp : s.m.pollingTimeoutId with
      | none => exact cursorLe_refl _
      | some d =>
          unfold pollCall
          split_ifs <;> exact cursorLe_refl _
  | stopCall => exact absurd rfl ha
  | pollRes r =>
      simp only [stepS, stepAction]
      split_ifs with hf
      · by_cases ha2 : authFailure r.statusCode r.body = true
        · rw [pollResponseEnd_lastEventId_auth { s with pollInFlight := s.pollInFlight - 1 } r ha2]
          exact cursorLe_refl _
        · have hb : authFailure r.statusCode r.body = false := Bool.eq_false_iff.mpr ha2
          rw [pollResponseEnd_lastEventId { s with pollInFlight := s.pollInFlight - 1 } r hb]
          exact cursorLe_parsedBatch s.m r.parsed
      · exact cursorLe_refl _
  | pollErr =>
      simp only [stepS, stepAction]
      split_ifs with hf
      · exact cursorLe_refl _
      · exact cursorLe_refl _
  | connRes r =>
      simp only [stepS, stepAction]
      split_ifs with hf
      · show cursorLe s.m.lastEventId (handleConnectionsEnd s.m r).1.lastEventId
        rw [handleConnectionsEnd_lastEventId]
        exact cursorLe_refl _
      · exact cursorLe_refl _

/-- Claim C4: within a session (no `stopMonitoring`), `lastEventId` is
monotonically non-decreasing under every scheduler step; a well-formed
non-empty batch sets it to the maximum of its prior value (`?? 0`) and every
event id of the batch; and an empty array, a non-array JSON value or an
unparseable body leave it exactly unchanged. -/
theorem lastEventId_monotone (s : Sys) (r : PollResponse) :
    (∀ a : SysAction, a ≠ SysAction.stopCall →
        cursorLe s.m.lastEventId (stepS s a).m.lastEventId)
    ∧ (authFailure r.statusCode r.body = false →
        ∀ (e : SyncthingEvent) (t : List SyncthingEvent),
          r.parsed = ParseResult.array (e :: t) →
          (pollResponseEnd s r).1.m.lastEventId
            = some (((e :: t).map SyncthingEvent.id).foldl max (s.m.lastEventId.getD 0)))
    ∧ ((r.parsed = ParseResult.array [] ∨ r.parsed = ParseResult.notArray
          ∨ r.parsed = ParseResult.parseFail) →
        (pollResponseEnd s r).1.m.lastEventId = s.m.lastEventId) := by
  refine ⟨fun a ha => stepS_cursorLe s a ha, fun hb e t hp => ?_, fun hp => ?_⟩
  · rw [pollResponseEnd_lastEventId s r hb, hp, parsedBatch_lastEventId_array, idFold_cons]
  · by_cases ha : authFailure r.statusCode r.body = true
    · exact pollResponseEnd_lastEventId_auth s r ha
    · have hb : authFailure r.statusCode r.body = false := Bool.eq_false_iff.mpr ha
      rw [pollResponseEnd_lastEventId s r hb]
      rcases hp with h | h | h <;> rw [h] <;> rfl

/-- Concrete poll response carrying the two-event batch. -/
def demoBatchResponse : PollResponse :=
  { statusCode := 200, body := "[events]",
    parsed := ParseResult.array [stateChangedEvent5, folderCompletionEvent7] }

theorem lastEventId_monotone_witness :
    SysAction.timerFires ≠ SysAction.stopCall
    ∧ authFailure demoBatchResponse.statusCode demoBatchResponse.body = false
    ∧ demoBatchResponse.parsed
        = ParseResult.array [stateChangedEvent5, folderCompletionEvent7]
    ∧ cursorLe initialSys.m.lastEventId (stepS initialSys SysAction.timerFires).m.lastEventId
    ∧ (pollResponseEnd initialSys demoBatchResponse).1.m.lastEventId
        = some (([stateChangedEvent5, folderCompletionEvent7].map SyncthingEvent.id).foldl
            max (initialSys.m.lastEventId.getD 0))
    ∧ (pollResponseEnd initialSys okEmptyPollResponse).1.m.lastEventId
        = initialSys.m.lastEventId :=
  ⟨by decide, by decide, rfl,
   (lastEventId_monotone initialSys demoBatchResponse).1 SysAction.timerFires (by decide),
   (lastEventId_monotone initialSys demoBatchResponse).2.1 (by decide)
     stateChangedEvent5 [folderCompletionEvent7] rfl,
   (lastEventId_monotone initialSys okEmptyPollResponse).2.2 (Or.inl rfl)⟩

theorem poll_auth_backoff_witness :
    authFailure authFailResponse.statusCode authFailResponse.body = true
    ∧ (pollResponseEnd initialSys authFailResponse).1.m.status = some "Invalid API key"
    ∧ (pollResponseEnd initialSys authFailResponse).1.m.pollingTimeoutId = some 5000
    ∧ authFailure okEmptyPollResponse.statusCode okEmptyPollResponse.body = false
    ∧ initialSys.m.timeout = 1
    ∧ (pollResponseEnd initialSys okEmptyPollResponse).1.m.pollingTimeoutId = some 1000 :=
  ⟨by decide,
   ((poll_auth_backoff initialSys authFailResponse).1 (by decide)).1,
   ((poll_auth_backoff initialSys authFailResponse).1 (by decide)).2.1,
   by decide, rfl,
   (poll_auth_backoff initialSys okEmptyPollResponse).2 (by decide) rfl⟩

/-! ## Per-action reduction lemmas for the scheduler -/

theorem stepS_timerFires_none (s : Sys) (hp : s.m.pollingTimeoutId = none) :
    stepS s SysAction.timerFires = s := by
  simp only [stepS, stepAction, hp]

theorem stepS_timerFires_some (s : Sys) (d : Nat) (hp : s.m.pollingTimeoutId = some d) :
    stepS s SysAction.timerFires
      = (pollCall { s with m := { s.m with pollingTimeoutId := none } }).1 := by
  simp only [stepS, stepAction, hp]

theorem stepS_stopCall (s : Sys) :
    stepS s SysAction.stopCall = { s with m := (stopMonitoring s.m).1 } := rfl

theorem stepS_pollRes_active (s : Sys) (r : PollResponse) (hf : s.pollInFlight ≠ 0) :
    stepS s (SysAction.pollRes r)
      = (pollResponseEnd { s with pollInFlight := s.pollInFlight - 1 } r).1 := by
  simp only [stepS, stepAction, if_pos hf]

theorem stepS_pollRes_idle (s : Sys) (r : PollResponse) (hf : ¬ s.pollInFlight ≠ 0) :
    stepS s (SysAction.pollRes r) = s := by
  simp only [stepS, stepAction, if_neg hf]

theorem stepS_pollErr_active (s : Sys) (hf : s.pollInFlight ≠ 0) :
    stepS s SysAction.pollErr
      = (pollErrorEnd { s with pollInFlight := s.pollInFlight - 1 }).1 := by
  simp only [stepS, stepAction, if_pos hf]

theorem stepS_pollErr_idle (s : Sys) (hf : ¬ s.pollInFlight ≠ 0) :
    stepS s SysAction.pollErr = s := by
  simp only [stepS, stepAction, if_neg hf]

theorem stepS_connRes_active (s : Sys) (r : ConnResponse) (hf : s.connInFlight ≠ 0) :
    stepS s (SysAction.connRes r)
      = { s with connInFlight := s.connInFlight - 1, m := (handleConnectionsEnd s.m r).1 } := by
  simp only [stepS, stepAction, if_pos hf]

theorem stepS_connRes_idle (s : Sys) (r : ConnResponse) (hf : ¬ s.connInFlight ≠ 0) :
    stepS s (SysAction.connRes r) = s := by
  simp only [stepS, stepAction, if_neg hf]

theorem pollResponseEnd_m_token (s : Sys) (r : PollResponse) :
    (pollResponseEnd s r).1.m.token = s.m.token := by
  by_cases ha : authFailure r.statusCode r.body = true
  · unfold pollResponseEnd
    rw [if_pos ha]
  · unfold pollResponseEnd
    rw [if_neg ha]
    show (connCall { s with m := parsedBatch s.m r.parsed }).1.m.token = s.m.token
    rw [connCall_m_token]
    exact parsedBatch_token s.m r.parsed

theorem pollResponseEnd_pollRequests (s : Sys) (r : PollResponse) :
    (pollResponseEnd s r).1.pollRequests = s.pollRequests := by
  by_cases ha : authFailure r.statusCode r.body = true
  · unfold pollResponseEnd
    rw [if_pos ha]
  · unfold pollResponseEnd
    rw [if_neg ha]
    show (connCall { s with m := parsedBatch s.m r.parsed }).1.pollRequests = s.pollRequests
    rw [connCall_pollRequests]

theorem pollResponseEnd_connRequests_falsy (s : Sys) (r : PollResponse)
    (h : tokenTruthy s.m.token = false) :
    (pollResponseEnd s r).1.connRequests = s.connRequests := by
  by_cases ha : authFailure r.statusCode r.body = true
  · unfold pollResponseEnd
    rw [if_pos ha]
  · unfold pollResponseEnd
    rw [if_neg ha]
    show (connCall { s with m := parsedBatch s.m r.parsed }).1.connRequests = s.connRequests
    unfold connCall
    split_ifs with ht
    · have ht' : tokenTruthy (parsedBatch s.m r.parsed).token = true := ht
      rw [parsedBatch_token, h] at ht'
      exact absurd ht' Bool.false_ne_true
    · rfl

/-! ## Claims C3 and C2: the scheduler invariants -/

theorem falsy_stepS (s : Sys) (a : SysAction) (h : tokenTruthy s.m.token = false) :
    tokenTruthy (stepS s a).m.token = false
    ∧ (stepS s a).pollRequests = s.pollRequests
    ∧ (stepS s a).connRequests = s.connRequests := by
  cases a with
  | timerFires =>
      cases hp : s.m.pollingTimeoutId with
      | none =>
          rw [stepS_timerFires_none s hp]
          exact ⟨h, rfl, rfl⟩
      | some d =>
          rw [stepS_timerFires_some s d hp]
          unfold pollCall
          split_ifs with ht
          · have ht' : tokenTruthy s.m.token = true := ht
            rw [h] at ht'
            exact absurd ht' Bool.false_ne_true
          · exact ⟨h, rfl, rfl⟩
  | stopCall =>
      rw [stepS_stopCall]
      refine ⟨?_, rfl, rfl⟩
      show tokenTruthy (stopMonitoring s.m).1.token = false
      rw [stopMonitoring_token]
      exact h
  | pollRes r =>
      by_cases hf : s.pollInFlight ≠ 0
      · rw [stepS_pollRes_active s r hf]
        refine ⟨?_, ?_, ?_⟩
        · rw [pollResponseEnd_m_token]
          exact h
        · exact pollResponseEnd_pollRequests _ r
        · exact pollResponseEnd_connRequests_falsy _ r h
      · rw [stepS_pollRes_idle s r hf]
        exact ⟨h, rfl, rfl⟩
  | pollErr =>
      by_cases hf : s.pollInFlight ≠ 0
      · rw [stepS_pollErr_active s hf]
        exact ⟨h, rfl, rfl⟩
      · rw [stepS_pollErr_idle s hf]
        exact ⟨h, rfl, rfl⟩
  | connRes r =>
      by_cases hf : s.connInFlight ≠ 0
      · rw [stepS_connRes_active s r hf]
        refine ⟨?_, rfl, rfl⟩
        show tokenTruthy (handleConnectionsEnd s.m r).1.token = false
        rw [handleConnectionsEnd_token]
        exact h
      · rw [stepS_connRes_idle s r hf]
        exact ⟨h, rfl, rfl⟩

theorem falsy_run (acts : List SysAction) (s : Sys)
    (h : tokenTruthy s.m.token = false) :
    tokenTruthy (runActions s acts).m.token = false
    ∧ (runActions s acts).pollRequests = s.pollRequests
    ∧ (runActions s acts).connRequests = s.connRequests := by
  induction acts generalizing s with
  | nil => exact ⟨h, rfl, rfl⟩
  | cons a t ih =>
      obtain ⟨h1, h2, h3⟩ := falsy_stepS s a h
      obtain ⟨g1, g2, g3⟩ := ih (stepS s a) h1
      exact ⟨g1, g2.trans h2, g3.trans h3⟩

/-- Claim C3: starting the monitor with an empty API token immediately sets
status `"API key not set"`, emits exactly one status update whose numeric
fields are all unknown, schedules nothing, issues no request — and no later
scheduler activity of this session ever issues an event-poll or connections
request either. -/
theorem start_empty_token (s : Sys) (settings : Settings) (baseUrl : String)
    (h : settings.syncthingApiKey = "") :
    (startMonitoring settings baseUrl s).1.m.status = some "API key not set"
    ∧ (startMonitoring settings baseUrl s).2
        = [Notification.statusUpdate (nanPayload (some "API key not set"))]
    ∧ (startMonitoring settings baseUrl s).1.pollRequests = s.pollRequests
    ∧ (startMonitoring settings baseUrl s).1.connRequests = s.connRequests
    ∧ (startMonitoring settings baseUrl s).1.m.pollingTimeoutId = s.m.pollingTimeoutId
    ∧ ∀ acts : List SysAction,
        (runActions (startMonitoring settings baseUrl s).1 acts).pollRequests
            = s.pollRequests
        ∧ (runActions (startMonitoring settings baseUrl s).1 acts).connRequests
            = s.connRequests := by
  have hee : (settings.syncthingApiKey != "") = false := by rw [h]; rfl
  unfold startMonitoring
  split_ifs with hs
  · have hs' : (settings.syncthingApiKey != "") = true := hs
    rw [hee] at hs'
    exact absurd hs' Bool.false_ne_true
  · have hf : tokenTruthy (some settings.syncthingApiKey) = false := hee
    exact ⟨rfl, rfl, rfl, rfl, rfl, fun acts =>
      ⟨(falsy_run acts _ hf).2.1, (falsy_run acts _ hf).2.2⟩⟩

theorem start_empty_token_witness :
    DEFAULT_SETTINGS.syncthingApiKey = ""
    ∧ (startMonitoring DEFAULT_SETTINGS "http://127.0.0.1:8384" initialSys).1.m.status
        = some "API key not set"
    ∧ (startMonitoring DEFAULT_SETTINGS "http://127.0.0.1:8384" initialSys).2
        = [Notification.statusUpdate (nanPayload (some "API key not set"))]
    ∧ (runActions (startMonitoring DEFAULT_SETTINGS "http://127.0.0.1:8384" initialSys).1
        [SysAction.timerFires]).pollRequests = initialSys.pollRequests :=
  ⟨rfl,
   (start_empty_token initialSys DEFAULT_SETTINGS "http://127.0.0.1:8384" rfl).1,
   (start_empty_token initialSys DEFAULT_SETTINGS "http://127.0.0.1:8384" rfl).2.1,
   ((start_empty_token initialSys DEFAULT_SETTINGS "http://127.0.0.1:8384" rfl).2.2.2.2.2
      [SysAction.timerFires]).1⟩

/-- A system with no event-poll request in flight and no pending poll timer. -/
def quiescent (s : Sys) : Prop := s.pollInFlight = 0 ∧ s.m.pollingTimeoutId = none

theorem quiescent_stepS (s : Sys) (a : SysAction) (h : quiescent s) :
    quiescent (stepS s a) ∧ (stepS s a).pollRequests = s.pollRequests := by
  obtain ⟨h1, h2⟩ := h
  cases a with
  | timerFires =>
      rw [stepS_timerFires_none s h2]
      exact ⟨⟨h1, h2⟩, rfl⟩
  | stopCall =>
      rw [stepS_stopCall]
      exact ⟨⟨h1, stopMonitoring_pollingTimeoutId s.m⟩, rfl⟩
  | pollRes r =>
      have hf : ¬ s.pollInFlight ≠ 0 := fun hh => hh h1
      rw [stepS_pollRes_idle s r hf]
      exact ⟨⟨h1, h2⟩, rfl⟩
  | pollErr =>
      have hf : ¬ s.pollInFlight ≠ 0 := fun hh => hh h1
      rw [stepS_pollErr_idle s hf]
      exact ⟨⟨h1, h2⟩, rfl⟩
  | connRes r =>
      by_cases hf : s.connInFlight ≠ 0
      · rw [stepS_connRes_active s r hf]
        refine ⟨⟨h1, ?_⟩, rfl⟩
        show (handleConnectionsEnd s.m r).1.pollingTimeoutId = none
        rw [handleConnectionsEnd_pollingTimeoutId]
        exact h2
      · rw [stepS_connRes_idle s r hf]
        exact ⟨⟨h1, h2⟩, rfl⟩

theorem quiescent_run (acts : List SysAction) (s : Sys) (h : quiescent s) :
    quiescent (runActions s acts) ∧ (runActions s acts).pollRequests = s.pollRequests := by
  induction acts generalizing s with
  | nil => exact ⟨h, rfl⟩
  | cons a t ih =>
      obtain ⟨h1, h2⟩ := quiescent_stepS s a h
      obtain ⟨g1, g2⟩ := ih (stepS s a) h1
      exact ⟨g1, g2.trans h2⟩

/-- Settings with a non-empty API key, for concrete runs. -/
def demoSettings : Settings := { DEFAULT_SETTINGS with syncthingApiKey := "k" }

/-- The system right after `startMonitoring` with a valid key: one event-poll
request and one connections request are in flight. -/
def startedSys : Sys := (startMonitoring demoSettings "http://127.0.0.1:8384" initialSys).1

/-- `startedSys` after its event-poll request completed: nothing in flight,
but a 1000 ms poll timer is pending. -/
def respondedSys : Sys := stepS startedSys (SysAction.pollRes okEmptyPollResponse)

/-- Counterexample to claim C2 as stated: `stopMonitoring` invoked while the
event-poll request is still in flight (the reachable state `startedSys`) does
not end polling — when the in-flight response arrives, its handler reschedules
the loop, the timer fires, and an additional event-poll request is issued. -/
theorem stop_with_inflight_poll_continues :
    startedSys.pollRequests = 1
    ∧ (runActions (stepS startedSys SysAction.stopCall)
        [SysAction.pollRes okEmptyPollResponse, SysAction.timerFires]).pollRequests = 2 := by
  decide

/-- Claim C2 (amended): if `stop()` is invoked in a state with no event-poll
request in flight — in particular when only the scheduled poll timer is
pending — then the timer is cancelled and no further event-poll request is
ever issued, whatever the clock and the remaining responses do.  (When a
request is in flight, its completion handler reschedules polling, so the
as-stated claim fails; see the counterexample.) -/
theorem stop_halts_future_polls (s : Sys) (h : s.pollInFlight = 0)
    (acts : List SysAction) :
    (runActions (stepS s SysAction.stopCall) acts).pollRequests = s.pollRequests := by
  have hq : quiescent (stepS s SysAction.stopCall) := by
    constructor
    · exact h
    · show (stopMonitoring s.m).1.pollingTimeoutId = none
      exact stopMonitoring_pollingTimeoutId s.m
  exact (quiescent_run acts _ hq).2

theorem stop_halts_future_polls_witness :
    respondedSys.pollInFlight = 0
    ∧ respondedSys.m.pollingTimeoutId = some 1000
    ∧ (runActions (stepS respondedSys SysAction.stopCall)
        [SysAction.timerFires, SysAction.timerFires]).pollRequests
        = respondedSys.pollRequests :=
  ⟨by decide, by decide,
   stop_halts_future_polls respondedSys (by decide)
     [SysAction.timerFires, SysAction.timerFires]⟩
